import Mathlib

/-!
Verification of the ERC-20 token-test-suite repository: a shallow embedding of
its assertion helpers, configuration resolver, fixture lifecycle and of the
token behaviour its scenario catalog asserts, together with theorems settling
the specification's claims.
-/

namespace Erc20Suite

/-! ## String search (JS `String.prototype.search(pat) >= 0` for literal patterns)

`expectError` classifies a thrown message by `error.message.search(messages[i]) >= 0`.
The patterns used (`'revert'`, `'invalid opcode'`) contain no regex metacharacters,
so the call is a plain substring search. -/

/-- `matchHere pat s` is true when `pat` is a prefix of `s` (character lists). -/
def matchHere : List Char → List Char → Bool
  | [], _ => true
  | _ :: _, [] => false
  | p :: ps, c :: cs => p == c && matchHere ps cs

/-- `searchFound pat s` is true when `pat` occurs as a contiguous run inside `s`. -/
def searchFound (pat : List Char) : List Char → Bool
  | [] => pat.isEmpty
  | c :: rest => matchHere pat (c :: rest) || searchFound pat rest

/-- `strContains s pat`: embedding of JS `s.search(pat) >= 0` for a
metacharacter-free `pat` (substring containment). -/
def strContains (s pat : String) : Bool :=
  searchFound pat.toList s.toList

/-! ## Expected-rejection helper (helpers file, `expectError` / `expectRevertOrFail`)

The awaited promise either resolves (modelled `none`) or throws an error whose
message is the `some` payload. `expectError` passes when some expected substring
occurs in the message, fails with `assert.fail("Expected revert, got ... instead.")`
when the message matches no pattern, and fails with
`assert.fail('Expected revert not received.')` when the promise resolved. -/

inductive ExpectOutcome where
  /-- the helper returns normally -/
  | passed
  /-- `assert.fail("Expected revert, got '...' instead.")` -/
  | failedWrongReason
  /-- `assert.fail('Expected revert not received.')` -/
  | failedNoThrow
deriving DecidableEq

/-- Embedding of `expectError(promise, messages)`: `outcome` is `some msg` when the
awaited promise threw an error with message `msg`, `none` when it resolved. -/
def expectError (outcome : Option String) (messages : List String) : ExpectOutcome :=
  match outcome with
  | some errMsg =>
      if messages.any (fun m => strContains errMsg m) then ExpectOutcome.passed
      else ExpectOutcome.failedWrongReason
  | none => ExpectOutcome.failedNoThrow

/-- Embedding of `expectRevert(promise)`. -/
def expectRevert (outcome : Option String) : ExpectOutcome :=
  expectError outcome ["revert"]

/-- Embedding of `expectRevertOrFail(promise)`. -/
def expectRevertOrFail (outcome : Option String) : ExpectOutcome :=
  expectError outcome ["revert", "invalid opcode"]

/-! ## Event assertion helpers (suite.js `testTransferEvent` / `testApprovalEvent`)

A commit receipt carries a list of logs; each log has an event name and an args
record whose members may be absent (JS `undefined`), modelled with `Option`.
Amounts are arbitrary precision (`web3.BigNumber`), modelled with `Int`. -/

structure LogArgs where
  /-- `args.from` -/
  fromAddr : Option String := none
  /-- `args.to` -/
  toAddr : Option String := none
  /-- `args.owner` -/
  owner : Option String := none
  /-- `args.spender` -/
  spender : Option String := none
  /-- `args.value` -/
  value : Option Int := none
deriving DecidableEq

structure LogEntry where
  event : String
  args : LogArgs
deriving DecidableEq

structure Receipt where
  logs : List LogEntry
deriving DecidableEq

/-- Embedding of the assertion portion of `testTransferEvent` (suite.js): takes
`result.logs[0]` and asserts its event name and `from`/`to`/`value` args; yields
`true` exactly when every assertion passes (an absent `logs[0]` makes the helper
throw, hence not pass). -/
def testTransferEvent (receipt : Receipt) (fromAddr toAddr : String) (amount : Int) : Bool :=
  match receipt.logs.head? with
  | some log =>
      log.event == "Transfer" && log.args.fromAddr == some fromAddr &&
        log.args.toAddr == some toAddr && log.args.value == some amount
  | none => false

/-- Embedding of the assertion portion of `testApprovalEvent` (suite.js): takes
`result.logs[0]` and asserts its event name and `owner`/`spender`/`value` args. -/
def testApprovalEvent (receipt : Receipt) (owner spender : String) (amount : Int) : Bool :=
  match receipt.logs.head? with
  | some log =>
      log.event == "Approval" && log.args.owner == some owner &&
        log.args.spender == some spender && log.args.value == some amount
  | none => false

/-- The event check as the specification words it: exactly one relevant (here:
`Transfer`) event is present in the receipt's log, with the expected arguments.
Stated for comparison with `testTransferEvent`, which is the code's behaviour. -/
def specExactlyOneTransfer (receipt : Receipt) (fromAddr toAddr : String) (amount : Int) : Bool :=
  match receipt.logs.filter (fun l => l.event == "Transfer") with
  | [log] =>
      log.args.fromAddr == some fromAddr && log.args.toAddr == some toAddr &&
        log.args.value == some amount
  | _ => false

/-! ## Configuration resolver (suite.js, top of `suite(options)`)

The suite reads `options.accounts` and derives the named participants by plain
JS indexing (`alice = accounts[1]`, `bob = accounts[2]`, `charles = accounts[3]`);
an out-of-range index yields `undefined`, modelled `none`. The body performs no
validation of the account count and can never raise a configuration error, hence
the `Except` result of `resolveConfig` is always `ok`. -/

structure SuiteOptions where
  accounts : List String
  initialSupply : Option Nat := none
  initialBalances : List (String × Nat) := []
  initialAllowances : List (String × String × Nat) := []
  increaseDecreaseApproval : Bool := false
deriving DecidableEq

structure Config where
  initialSupply : Nat
  initialBalances : List (String × Nat)
  initialAllowances : List (String × String × Nat)
  alice : Option String
  bob : Option String
  charles : Option String
deriving DecidableEq

/-- Embedding of the configure/setup section of `suite(options)`: defaults the
optional fields and names the accounts by index. The source contains no check
of `accounts.length` and no throw, so the result is unconditionally `ok`. -/
def resolveConfig (opts : SuiteOptions) : Except String Config :=
  Except.ok
    { initialSupply := opts.initialSupply.getD 0,
      initialBalances := opts.initialBalances,
      initialAllowances := opts.initialAllowances,
      alice := opts.accounts.get? 1,
      bob := opts.accounts.get? 2,
      charles := opts.accounts.get? 3 }

/-- Modelled from the spec: "an implementation should fail fast (a configuration
error, not a silent default) if fewer than four accounts are supplied".  Stated
for comparison with `resolveConfig`, which is the code's behaviour. -/
def specResolveConfig (opts : SuiteOptions) : Except String Config :=
  if opts.accounts.length < 4 then
    Except.error "configuration error: at least 4 accounts are required"
  else resolveConfig opts

/-! ## Fixture lifecycle (suite.js `beforeEach` / `afterEach`)

`beforeEach` runs `token = await createToken()` and then, unconditionally,
`decimals = await token.decimals.call()`.  The contract's decimals query is
modelled `Option Nat` — `none` when the contract does not expose one, in which
case accessing `.call` of `undefined` throws, surfaced as an `error`. -/

/-- Embedding of the decimals resolution in `beforeEach`:
`decimals = await token.decimals.call()`, with no guard on the query's
existence. -/
def resolveDecimals (decimalsQuery : Option Nat) : Except String Nat :=
  match decimalsQuery with
  | some d => Except.ok d
  | none => Except.error "TypeError: token.decimals is undefined"

/-- Modelled from the spec: "if absent, treat decimals as zero (no scaling)".
Stated for comparison with `resolveDecimals`, which is the code's behaviour. -/
def specResolveDecimals (decimalsQuery : Option Nat) : Nat :=
  decimalsQuery.getD 0

/-! ## Asynchronous step ordering (suite.js `beforeEach`/`afterEach` and scenarios)

Each asynchronous statement of a scenario is recorded in source order with
whether the source awaits it.  In `beforeEach`, `createToken()` and
`token.decimals.call()` are awaited; `options.beforeEach(token)` is invoked
without `await`.  In `afterEach`, `options.afterEach(token)` is invoked without
`await`.  Every contract call inside an `it` body appears under `await`. -/

structure AsyncStep where
  name : String
  awaited : Bool
deriving DecidableEq

/-- Embedding of the `beforeEach` fixture body: statements in order with their
awaitedness as written in the source. -/
def beforeEachSteps (hasBeforeHook : Bool) : List AsyncStep :=
  [{ name := "createToken", awaited := true },
   { name := "decimalsCall", awaited := true }] ++
    (if hasBeforeHook then [{ name := "optionsBeforeEach", awaited := false }] else [])

/-- Embedding of the `afterEach` fixture body. -/
def afterEachSteps (hasAfterHook : Bool) : List AsyncStep :=
  if hasAfterHook then [{ name := "optionsAfterEach", awaited := false }] else []

/-- A whole scenario's asynchronous steps: the fixture setup, the scenario
body's contract calls (each of which the source awaits), then the teardown. -/
def scenarioSteps (hasBeforeHook hasAfterHook : Bool) (contractCalls : List String) :
    List AsyncStep :=
  beforeEachSteps hasBeforeHook ++
    contractCalls.map (fun c => { name := c, awaited := true }) ++
      afterEachSteps hasAfterHook

/-! ## Amount scaling and the unsigned maximum (suite.js `tokens` / `uintMax`)

`tokens(amount)` is `new web3.BigNumber(amount).shift(decimals)` — a decimal
left shift by the per-scenario cached `decimals` —, and
`uintMax` is `new web3.BigNumber(2).pow(256).minus(1)`. -/

/-- Embedding of `tokens(amount)`: scale a human-specified amount by the cached
`decimals` into base units. -/
def tokens (decimals amount : Nat) : Nat :=
  amount * 10 ^ decimals

/-- Embedding of `uintMax`. -/
def uintMax : Nat :=
  2 ^ 256 - 1

/-! ## The Contract Under Test

The token contract itself is external to the repository: the suite only probes
it through its public interface.  The definitions below are modelled from the
spec's behavioural description (§4.3, §8) of the token the suite asserts:
balances and allowances are arbitrary-precision amounts, `approve` overwrites
and always emits `Approval`, `transfer`/`transferFrom` move balances guarded by
balance and allowance checks and emit `Transfer`, `increaseApproval` adds with
an overflow guard at `uintMax`, and `decreaseApproval` subtracts clamped at
zero and never reverts. -/

/-- Modelled from the spec: an event emitted by a committed mutating call of
the Contract Under Test. -/
inductive TokenEvent where
  | transferEv (source dest : String) (value : Nat)
  | approvalEv (owner spender : String) (value : Nat)
deriving DecidableEq

/-- Modelled from the spec: the observable state of the Contract Under Test. -/
structure Token where
  balances : String → Nat
  allowances : String → String → Nat
  supply : Nat

/-- Point update of a balance map. -/
def updateBal (b : String → Nat) (a : String) (v : Nat) : String → Nat :=
  fun x => if x = a then v else b x

/-- Point update of an allowance map at one (owner, spender) pair. -/
def updateAllow (al : String → String → Nat) (o s : String) (v : Nat) :
    String → String → Nat :=
  fun o' s' => if o' = o ∧ s' = s then v else al o' s'

/-- Modelled from the spec: `approve(spender, value)` by `sender` — no failure
mode, overwrites the allowance with exactly `value` and always emits
`Approval(sender, spender, value)`. -/
def approve (t : Token) (sender spender : String) (value : Nat) : Token × TokenEvent :=
  ({ t with allowances := updateAllow t.allowances sender spender value },
   TokenEvent.approvalEv sender spender value)

/-- Modelled from the spec: `transfer(dest, value)` by `sender` — reverts
(`none`) when `value` exceeds the sender's balance, otherwise debits the sender
then credits the recipient and emits `Transfer(sender, dest, value)`. -/
def transfer (t : Token) (sender dest : String) (value : Nat) :
    Option (Token × TokenEvent) :=
  if value ≤ t.balances sender then
    let b1 := updateBal t.balances sender (t.balances sender - value)
    let b2 := updateBal b1 dest (b1 dest + value)
    some ({ t with balances := b2 }, TokenEvent.transferEv sender dest value)
  else none

/-- Modelled from the spec: `transferFrom(source, dest, value)` by `caller` —
reverts when `value` exceeds the source's balance or the caller's allowance
from the source; otherwise moves the balances, debits the allowance by exactly
`value` and emits `Transfer(source, dest, value)`. -/
def transferFrom (t : Token) (caller source dest : String) (value : Nat) :
    Option (Token × TokenEvent) :=
  if value ≤ t.balances source ∧ value ≤ t.allowances source caller then
    let b1 := updateBal t.balances source (t.balances source - value)
    let b2 := updateBal b1 dest (b1 dest + value)
    some ({ t with
            balances := b2,
            allowances :=
              updateAllow t.allowances source caller (t.allowances source caller - value) },
          TokenEvent.transferEv source dest value)
  else none

/-- Modelled from the spec: `increaseApproval(spender, added)` by `sender` —
adds to the current allowance, reverting (`none`) when the new total would
exceed `uintMax`, and emits `Approval` with the new total. -/
def increaseApproval (t : Token) (sender spender : String) (added : Nat) :
    Option (Token × TokenEvent) :=
  let newVal := t.allowances sender spender + added
  if newVal ≤ uintMax then
    some ({ t with allowances := updateAllow t.allowances sender spender newVal },
          TokenEvent.approvalEv sender spender newVal)
  else none

/-- Modelled from the spec: `decreaseApproval(spender, sub)` by `sender` —
never reverts; subtracts clamped at zero (`Nat` truncated subtraction) and
emits `Approval` with the new value. -/
def decreaseApproval (t : Token) (sender spender : String) (sub : Nat) :
    Option (Token × TokenEvent) :=
  let newVal := t.allowances sender spender - sub
  some ({ t with allowances := updateAllow t.allowances sender spender newVal },
        TokenEvent.approvalEv sender spender newVal)

/-- A sequence of committed `approve(spender, v)` calls by `owner`, collecting
the emitted events in order. -/
def approveSeq (t : Token) (owner spender : String) : List Nat → Token × List TokenEvent
  | [] => (t, [])
  | v :: vs =>
      let p := approve t owner spender v
      let q := approveSeq p.1 owner spender vs
      (q.1, p.2 :: q.2)

/-! ## Concrete instances used by witnesses and counterexamples -/

/-- A receipt whose log holds two identical `Transfer` events. -/
def dupTransferReceipt : Receipt :=
  { logs :=
      [{ event := "Transfer",
         args := { fromAddr := some "0xa", toAddr := some "0xb", value := some 3 } },
       { event := "Transfer",
         args := { fromAddr := some "0xa", toAddr := some "0xb", value := some 3 } }] }

/-- Options carrying only three accounts (owner plus two participants). -/
def shortOptions : SuiteOptions :=
  { accounts := ["0x0", "0xa", "0xb"] }

/-- The configuration the resolver produces from `shortOptions`. -/
def cfgShort : Config :=
  { initialSupply := 0, initialBalances := [], initialAllowances := [],
    alice := some "0xa", bob := some "0xb", charles := none }

/-- The empty token state. -/
def token0 : Token :=
  { balances := fun _ => 0, allowances := fun _ _ => 0, supply := 0 }

/-- A token whose sole nonzero allowance is 3 from `0xa` to `0xb`. -/
def token3 : Token :=
  { balances := fun _ => 0,
    allowances := fun o s => if o = "0xa" ∧ s = "0xb" then 3 else 0,
    supply := 0 }

/-- A token where `0xa` holds 3 tokens and has approved 3 to `0xc` and 5 to `0xd`. -/
def tokenC5 : Token :=
  { balances := fun a => if a = "0xa" then 3 else 0,
    allowances := fun o s =>
      if o = "0xa" ∧ s = "0xc" then 3
      else if o = "0xa" ∧ s = "0xd" then 5
      else 0,
    supply := 3 }

/-- A token where `0xa` holds 3 tokens. -/
def tokenBal3 : Token :=
  { balances := fun a => if a = "0xa" then 3 else 0,
    allowances := fun _ _ => 0,
    supply := 3 }

/-! ## Theorems -/

/-- C1: `expectRevertOrFail` awaits the operation and: when it resolves, the
helper fails with the "expected revert not received" assertion; when it throws
a message containing neither "revert" nor "invalid opcode", the helper fails
with the wrong-reason assertion; and when the message contains at least one of
those substrings, the helper returns successfully. -/
theorem expectRevertOrFail_classifies (msg : String) :
    expectRevertOrFail none = ExpectOutcome.failedNoThrow ∧
    (expectRevertOrFail (some msg) = ExpectOutcome.passed ↔
      (strContains msg "revert" = true ∨ strContains msg "invalid opcode" = true)) ∧
    (expectRevertOrFail (some msg) = ExpectOutcome.failedWrongReason ↔
      (strContains msg "revert" = false ∧ strContains msg "invalid opcode" = false)) := by
  refine ⟨rfl, ?_, ?_⟩ <;>
    cases h1 : strContains msg "revert" <;>
      cases h2 : strContains msg "invalid opcode" <;>
        simp [expectRevertOrFail, expectError, h1, h2]

/-- C2 counterexample: a receipt with two identical `Transfer` events passes
`testTransferEvent` even though more than one relevant event is present, so the
helper does not assert that exactly one relevant event is in the log. -/
theorem testTransferEvent_two_events_counterexample :
    testTransferEvent dupTransferReceipt "0xa" "0xb" 3 = true ∧
    specExactlyOneTransfer dupTransferReceipt "0xa" "0xb" 3 = false := by
  decide

/-- C2 (amended): the event assertion helpers check exactly the first entry of
the receipt's log — its event name and each checked argument, the amount by
arbitrary-precision numeric equality — and pass precisely when that first entry
matches; entries after the first are not inspected. -/
theorem event_helpers_check_first_log_only (receipt : Receipt)
    (fromAddr toAddr owner spender : String) (amount : Int) :
    (testTransferEvent receipt fromAddr toAddr amount = true ↔
      ∃ log rest, receipt.logs = log :: rest ∧ log.event = "Transfer" ∧
        log.args.fromAddr = some fromAddr ∧ log.args.toAddr = some toAddr ∧
        log.args.value = some amount) ∧
    (testApprovalEvent receipt owner spender amount = true ↔
      ∃ log rest, receipt.logs = log :: rest ∧ log.event = "Approval" ∧
        log.args.owner = some owner ∧ log.args.spender = some spender ∧
        log.args.value = some amount) := by
  obtain ⟨logs⟩ := receipt
  cases logs with
  | nil => simp [testTransferEvent, testApprovalEvent]
  | cons l rest =>
      simp [testTransferEvent, testApprovalEvent, and_assoc]

/-- Helper: a nonempty committed `approve` sequence leaves the allowance at the
last approved value and emits one `Approval` per call, each carrying its call's
absolute value. -/
theorem approveSeq_spec (t : Token) (owner spender : String) (v : Nat) (vs : List Nat) :
    (approveSeq t owner spender (v :: vs)).1.allowances owner spender =
      (v :: vs).getLast (List.cons_ne_nil v vs) ∧
    (approveSeq t owner spender (v :: vs)).2 =
      (v :: vs).map (TokenEvent.approvalEv owner spender) := by
  induction vs generalizing t v with
  | nil => simp [approveSeq, approve, updateAllow]
  | cons w ws ih =>
      have ihh := ih ((approve t owner spender v).1) w
      constructor
      · show (approveSeq ((approve t owner spender v).1) owner spender
            (w :: ws)).1.allowances owner spender = _
        rw [ihh.1]
        exact (List.getLast_cons (List.cons_ne_nil w ws)).symm
      · show TokenEvent.approvalEv owner spender v ::
            (approveSeq ((approve t owner spender v).1) owner spender (w :: ws)).2 = _
        rw [ihh.2]
        rfl

/-- C3: for every owner/spender pair and every nonempty sequence of committed
`approve` calls, the resulting allowance equals exactly the most recent call's
value (overwrite, not additive), and each committed call emits an `Approval`
event carrying its new absolute value — including repeated identical values. -/
theorem approve_sequence_overwrites_and_emits (t : Token) (owner spender : String)
    (vs : List Nat) (h : vs ≠ []) :
    (approveSeq t owner spender vs).1.allowances owner spender = vs.getLast h ∧
    (approveSeq t owner spender vs).2 = vs.map (TokenEvent.approvalEv owner spender) := by
  cases vs with
  | nil => exact absurd rfl h
  | cons v vs => exact approveSeq_spec t owner spender v vs

/-- C3 witness: two consecutive `approve(spender, 0)` calls leave the allowance
at 0 and emit two `Approval(owner, spender, 0)` events. -/
theorem approve_sequence_witness :
    (approveSeq token0 "0xa" "0xb" [0, 0]).1.allowances "0xa" "0xb" = 0 ∧
    (approveSeq token0 "0xa" "0xb" [0, 0]).2 =
      [TokenEvent.approvalEv "0xa" "0xb" 0, TokenEvent.approvalEv "0xa" "0xb" 0] := by
  have h := approve_sequence_overwrites_and_emits token0 "0xa" "0xb" [0, 0] (by simp)
  exact ⟨h.1.trans rfl, h.2.trans rfl⟩

/-- C4: `increaseApproval` by an amount pushing the allowance past `uintMax`
reverts, while `decreaseApproval` never reverts: it reports success for any
subtracted amount and clamps the resulting allowance at zero instead of going
negative. -/
theorem increase_overflow_reverts_decrease_clamps (t : Token) (sender spender : String)
    (added sub : Nat) :
    (uintMax < t.allowances sender spender + added →
      increaseApproval t sender spender added = none) ∧
    ∃ t' e, decreaseApproval t sender spender sub = some (t', e) ∧
      t'.allowances sender spender = t.allowances sender spender - sub ∧
      (t.allowances sender spender ≤ sub → t'.allowances sender spender = 0) := by
  constructor
  · intro hover
    simp only [increaseApproval]
    rw [if_neg (by omega)]
  · refine ⟨_, _, rfl, ?_, ?_⟩
    · simp [decreaseApproval, updateAllow]
    · intro hle
      simp [decreaseApproval, updateAllow, Nat.sub_eq_zero_of_le hle]

/-- C4 witness: with allowance 3 from `0xa` to `0xb`, increasing by `uintMax`
reverts, while decreasing by 100 succeeds and clamps the allowance to 0. -/
theorem increase_decrease_witness :
    increaseApproval token3 "0xa" "0xb" uintMax = none ∧
    ∃ t' e, decreaseApproval token3 "0xa" "0xb" 100 = some (t', e) ∧
      t'.allowances "0xa" "0xb" = 0 := by
  have h := increase_overflow_reverts_decrease_clamps token3 "0xa" "0xb" uintMax 100
  constructor
  · refine h.1 ?_
    have h3 : token3.allowances "0xa" "0xb" = 3 := by decide
    omega
  · obtain ⟨t', e, he, _, hz⟩ := h.2
    exact ⟨t', e, he, hz (by decide)⟩

/-- C5: every successful `transferFrom` of amount `value` by `caller` out of
`source` debits the caller's allowance by exactly `value` (never resetting it),
leaves every other spender's allowance against `source` untouched, and leaves
the total supply unchanged. -/
theorem transferFrom_allowance_frame (t : Token) (caller source dest : String)
    (value : Nat) (t' : Token) (e : TokenEvent)
    (h : transferFrom t caller source dest value = some (t', e)) :
    value ≤ t.allowances source caller ∧
    t'.allowances source caller = t.allowances source caller - value ∧
    (∀ s, s ≠ caller → t'.allowances source s = t.allowances source s) ∧
    t'.supply = t.supply := by
  unfold transferFrom at h
  split at h
  case isTrue hcond =>
      injection h with hpair
      injection hpair with hT hE
      subst hT
      refine ⟨hcond.2, ?_, ?_, rfl⟩
      · simp [updateAllow]
      · intro s hs
        simp [updateAllow, hs]
  case isFalse => exact Option.noConfusion h

/-- C5 witness: `0xa` holds 3 and approved 3 to `0xc` and 5 to `0xd`; after
`0xc` calls `transferFrom(0xa, 0xb, 2)`, allowance(0xa, 0xc) = 1,
allowance(0xa, 0xd) is untouched at 5, and the supply is unchanged. -/
theorem transferFrom_allowance_frame_witness :
    ∃ t' e, transferFrom tokenC5 "0xc" "0xa" "0xb" 2 = some (t', e) ∧
      t'.allowances "0xa" "0xc" = 1 ∧ t'.allowances "0xa" "0xd" = 5 ∧
      t'.supply = 3 := by
  have hcond : 2 ≤ tokenC5.balances "0xa" ∧ 2 ≤ tokenC5.allowances "0xa" "0xc" := by
    decide
  obtain ⟨t', e, hsome⟩ :
      ∃ t' e, transferFrom tokenC5 "0xc" "0xa" "0xb" 2 = some (t', e) := by
    unfold transferFrom
    rw [if_pos hcond]
    exact ⟨_, _, rfl⟩
  have h := transferFrom_allowance_frame tokenC5 "0xc" "0xa" "0xb" 2 t' e hsome
  refine ⟨t', e, hsome, ?_, ?_, ?_⟩
  · rw [h.2.1]; decide
  · rw [h.2.2.1 "0xd" (by decide)]; decide
  · rw [h.2.2.2]; rfl

/-- C6: for every amount not exceeding the sender's balance, a committed
transfer from an account to itself leaves that account's balance unchanged
while still emitting a `Transfer(self, self, value)` event carrying the nominal
amount. -/
theorem transfer_to_self_balance_unchanged (t : Token) (a : String) (value : Nat)
    (h : value ≤ t.balances a) :
    ∃ t', transfer t a a value = some (t', TokenEvent.transferEv a a value) ∧
      t'.balances a = t.balances a := by
  unfold transfer
  rw [if_pos h]
  refine ⟨_, rfl, ?_⟩
  simp [updateBal, Nat.sub_add_cancel h]

/-- C6 witness: `0xa` holds 3; a self-transfer of 2 commits, emits
`Transfer(0xa, 0xa, 2)`, and leaves the balance at 3. -/
theorem transfer_to_self_witness :
    ∃ t', transfer tokenBal3 "0xa" "0xa" 2 =
        some (t', TokenEvent.transferEv "0xa" "0xa" 2) ∧
      t'.balances "0xa" = 3 := by
  obtain ⟨t', hsome, hbal⟩ :=
    transfer_to_self_balance_unchanged tokenBal3 "0xa" 2 (by decide)
  exact ⟨t', hsome, hbal.trans (by decide)⟩

/-- C7 counterexample: when the contract exposes no decimals query, the fixture
does not treat decimals as zero — resolution fails instead of yielding the
spec's zero default. -/
theorem resolveDecimals_absent_counterexample :
    specResolveDecimals none = 0 ∧
    resolveDecimals none ≠ Except.ok (specResolveDecimals none) := by
  refine ⟨rfl, ?_⟩
  simp [resolveDecimals, specResolveDecimals]

/-- C7 (amended): before each scenario the fixture resolves the contract's
decimals query once and caches it for the scenario's duration to scale
human-specified amounts; the query is unconditional, so a contract exposing
decimals yields that value, while a contract without a decimals query makes
the fixture fail rather than defaulting decimals to zero. -/
theorem resolveDecimals_unconditional (q : Option Nat) :
    (∀ d, q = some d → resolveDecimals q = Except.ok d) ∧
    (q = none →
      resolveDecimals q = Except.error "TypeError: token.decimals is undefined") := by
  constructor
  · rintro d rfl; rfl
  · rintro rfl; rfl

/-- C7 witness: a contract exposing 18 decimals resolves to 18. -/
theorem resolveDecimals_unconditional_witness :
    resolveDecimals (some 18) = Except.ok 18 :=
  (resolveDecimals_unconditional (some 18)).1 18 rfl

/-- C8 counterexample: with only three accounts supplied, the resolver still
succeeds — the third participant is simply absent (`undefined`) — while the
spec-worded resolver raises a configuration error. -/
theorem resolveConfig_three_accounts_counterexample :
    resolveConfig shortOptions = Except.ok cfgShort ∧
    cfgShort.charles = none ∧
    (specResolveConfig shortOptions).isOk = false :=
  ⟨rfl, rfl, rfl⟩

/-- C8 (amended): the suite performs no validation of the account count; the
configuration always resolves successfully, with the third participant bound to
`accounts[3]` by plain indexing — `undefined` (`none`) when fewer than four
accounts are supplied — so scenarios proceed with that undefined participant
rather than failing fast with a configuration error. -/
theorem resolveConfig_never_fails (opts : SuiteOptions) :
    (resolveConfig opts).isOk = true ∧
    (∀ cfg, resolveConfig opts = Except.ok cfg → cfg.charles = opts.accounts.get? 3) := by
  refine ⟨rfl, ?_⟩
  rintro cfg hcfg
  injection hcfg with h
  exact h ▸ rfl

/-- C8 witness: resolving three accounts succeeds and the third participant is
absent. -/
theorem resolveConfig_never_fails_witness :
    (resolveConfig shortOptions).isOk = true ∧ cfgShort.charles = none :=
  ⟨(resolveConfig_never_fails shortOptions).1,
   ((resolveConfig_never_fails shortOptions).2 cfgShort rfl).trans rfl⟩

/-- C9 counterexample: with both caller hooks present, a scenario's steps are
not all awaited — the hook invocations are fired without `await`. -/
theorem scenario_steps_not_all_awaited :
    ((scenarioSteps true true ["approve", "transferFrom"]).all fun s => s.awaited)
      = false := by
  decide

/-- C9 (amended): within every scenario the factory call, the decimals
resolution and the scenario's contract calls are each awaited to completion in
order, but the caller's setup and teardown hooks are invoked without `await`:
every un-awaited step is one of the two hook invocations, and whenever a hook
is configured its un-awaited invocation is among the scenario's steps. -/
theorem hooks_invoked_without_await (hb ha : Bool) (calls : List String) :
    ((scenarioSteps hb ha calls).all fun s =>
        s.awaited || s.name == "optionsBeforeEach" || s.name == "optionsAfterEach")
      = true ∧
    (hb = true →
      ({ name := "optionsBeforeEach", awaited := false } : AsyncStep) ∈
        scenarioSteps hb ha calls) ∧
    (ha = true →
      ({ name := "optionsAfterEach", awaited := false } : AsyncStep) ∈
        scenarioSteps hb ha calls) := by
  refine ⟨?_, ?_, ?_⟩
  · cases hb <;> cases ha <;>
      simp [scenarioSteps, beforeEachSteps, afterEachSteps, List.all_append,
        List.all_map, Function.comp]
  · rintro rfl
    cases ha <;> simp [scenarioSteps, beforeEachSteps, afterEachSteps]
  · rintro rfl
    cases hb <;> simp [scenarioSteps, beforeEachSteps, afterEachSteps]

/-- C9 witness: with both hooks configured, the un-awaited setup-hook invocation
is among the steps of a scenario with one contract call. -/
theorem hooks_invoked_without_await_witness :
    ({ name := "optionsBeforeEach", awaited := false } : AsyncStep) ∈
      scenarioSteps true true ["approve"] :=
  (hooks_invoked_without_await true true ["approve"]).2.1 rfl

/-- C10: the suite pins the maximum representable unsigned value to exactly
2^256 − 1 (the 78-digit literal below), and a human-specified amount is scaled
to exactly `amount * 10 ^ decimals` base units, where `decimals` is the
per-scenario cached value; zero scales to zero for any cached decimals. -/
theorem uintMax_and_tokens_scaling (decimals amount : Nat) :
    uintMax =
      115792089237316195423570985008687907853269984665640564039457584007913129639935 ∧
    uintMax + 1 = 2 ^ 256 ∧
    tokens decimals amount = amount * 10 ^ decimals ∧
    tokens decimals 0 = 0 ∧
    tokens 18 1 = 1000000000000000000 := by
  refine ⟨by norm_num [uintMax], by norm_num [uintMax], rfl, by simp [tokens],
    by norm_num [tokens]⟩

end Erc20Suite
